import Mathlib

/-!
Shallow embedding of the coupon clipper program (src/coupon_clipper.py).

The program automates clipping digital coupons on grocery websites through a
Selenium-controlled browser.  The definitions below translate the pure decision
logic of the relevant methods; browser observations (element visibility, page
text, click outcomes, page lengths) are passed in explicitly as data, and
Python exceptions raised by driver calls are modelled with Except or Bool
fields where the control flow depends on them.
-/

namespace CouponClipper

/-- Prefix test on character lists: needle is a prefix of the haystack.
Building block for the substring test that models the Python operator
testing string containment. -/
def charsPre : List Char → List Char → Bool
  | [], _ => true
  | _ :: _, [] => false
  | a :: as, b :: bs => a == b && charsPre as bs

/-- Substring test on character lists: needle occurs contiguously in hay. -/
def charsSub (needle : List Char) : List Char → Bool
  | [] => charsPre needle []
  | c :: cs => charsPre needle (c :: cs) || charsSub needle cs

/-- Models the Python expression testing whether needle occurs in hay
(string containment). -/
def strContains (hay needle : String) : Bool :=
  charsSub needle.data hay.data

/-- ASCII lowercasing of one character, as Python str.lower acts on the
ASCII phrases and indicators this program compares. -/
def lowerChar (c : Char) : Char :=
  if 65 ≤ c.toNat ∧ c.toNat ≤ 90 then Char.ofNat (c.toNat + 32) else c

/-- ASCII lowercasing of a string (models the Python lower() calls). -/
def strLower (s : String) : String := ⟨s.data.map lowerChar⟩

/-- Settings consulted by the rate-limit detector: the
enable_rate_limit_detection flag and the rate_limit_threshold value
(settings.get default 3). -/
structure RateLimitSettings where
  enableDetection : Bool
  threshold : Nat

/-- The context _is_rate_limited inspects: either a main-content element
(payload: the text reported by the element, as returned by the driver) when
rate_limit_check_main_content_only selected an element (or the body fallback),
or the raw page source string otherwise.  In the Python code the branch on
context distinguishes exactly these two cases, since a WebElement never
compares equal to the page-source string. -/
inductive RLContext where
  | element : String → RLContext
  | pageSource : String → RLContext

/-- The generic rate-limit phrases hard-coded in _is_rate_limited. -/
def rateLimitPhrases : List String :=
  ["rate limit", "too many requests", "too many attempts",
   "try again later", "temporarily blocked"]

/-- Translation of _is_rate_limited (src/coupon_clipper.py lines 1094-1190).
Inputs: the settings, the rate_limit_indicators list of the website config,
the inspected context and the current rate_limit_count.  Output: the returned
Bool together with the updated rate_limit_count. -/
def isRateLimited (settings : RateLimitSettings) (indicators : List String)
    (ctx : RLContext) (count : Nat) : Bool × Nat :=
  if !settings.enableDetection then (false, count)
  else
    match ctx with
    | .pageSource src =>
        if indicators.any (fun ind => strContains src ind) then (true, count)
        else (false, count)
    | .element txt =>
        let contextText := strLower txt
        if indicators.any (fun ind => strContains contextText (strLower ind)) then
          (true, count)
        else if rateLimitPhrases.any (fun p => strContains contextText p) then
          let c := count + 1
          if settings.threshold ≤ c then (true, c) else (false, c)
        else
          (false, 0)

/-- Python int() truncation toward zero, on rationals: floor for nonnegative
arguments, ceiling for negative ones. -/
def pyInt (q : ℚ) : ℤ := if 0 ≤ q then ⌊q⌋ else ⌈q⌉

/-- Translation of _handle_rate_limit (src/coupon_clipper.py lines 1192-1233).
Inputs: the rate_limit_backoff_factor and max_backoff_time settings and the
current backoff_time.  The method computes wait_time as the minimum of
max_backoff_time and backoff_time, sleeps through a countdown loop of
int(wait_time) one-second sleeps, sets backoff_time to the minimum of
max_backoff_time and backoff_time times the factor, refreshes the page and
returns True.  Output: (seconds slept in the countdown, new backoff_time,
returned Bool). -/
def handleRateLimit (factor maxBackoff backoff : ℚ) : ℤ × ℚ × Bool :=
  (pyInt (min maxBackoff backoff), min maxBackoff (backoff * factor), true)

/-- Stored backoff_time after n rate-limit handlings, starting from the
value 1 to which clip_coupons resets it at the start of every run
(src/coupon_clipper.py line 2442 and the initializer at line 1820). -/
def backoffAfter (factor maxBackoff : ℚ) : Nat → ℚ
  | 0 => 1
  | n + 1 => (handleRateLimit factor maxBackoff (backoffAfter factor maxBackoff n)).2.1

/-- One of the six click strategies tried in order by _enhanced_click_button. -/
inductive ClickStrategy where
  | native
  | js
  | actionChain
  | coordinate
  | parentJs
  | enterKey
deriving DecidableEq, Repr

/-- The fixed order in which _enhanced_click_button tries its strategies:
standard element click, JavaScript click, ActionChains move-and-click,
ActionChains coordinate click at the element center, JavaScript click on the
parent element, and sending the Enter key. -/
def clickStrategyOrder : List ClickStrategy :=
  [.native, .js, .actionChain, .coordinate, .parentJs, .enterKey]

/-- Observable behaviour of the button and driver during
_enhanced_click_button: the is_displayed and is_enabled reports, the reported
size, and for each strategy whether it completes without raising. -/
structure ClickButtonEnv where
  displayed : Bool
  enabled : Bool
  width : Nat
  height : Nat
  succeeds : ClickStrategy → Bool

/-- The try/except cascade over a list of strategies: each strategy in turn is
attempted; on success the method returns True at once; a raising strategy
falls through to the next.  Output: the returned Bool and the list of
strategies actually attempted, in order. -/
def tryStrategies (e : ClickButtonEnv) : List ClickStrategy → Bool × List ClickStrategy
  | [] => (false, [])
  | s :: rest =>
    if e.succeeds s then (true, [s])
    else
      let r := tryStrategies e rest
      (r.1, s :: r.2)

/-- Translation of _enhanced_click_button (src/coupon_clipper.py lines
986-1092): after scrolling the button into view it returns False when the
button is not displayed or not enabled, or when either reported dimension is
below 5 pixels; otherwise it runs the six-strategy cascade. -/
def enhancedClickButton (e : ClickButtonEnv) : Bool × List ClickStrategy :=
  if !e.displayed || !e.enabled then (false, [])
  else if e.width < 5 || e.height < 5 then (false, [])
  else tryStrategies e clickStrategyOrder

/-- Observations driving one run of the _load_all_content loop, indexed by the
value the iteration counter takes after the increment at the top of the loop
body: whether _click_load_more_button returns True in that iteration, the
page-source length measured after the optional click, the length re-measured
after the extra scroll of the clicked-but-no-growth branch, and the length
measured before the loop starts. -/
structure LoadEnv where
  clickOk : Nat → Bool
  lenAfter : Nat → Nat
  lenRecheck : Nat → Nat
  initLen : Nat

/-- Mutable state of the _load_all_content loop: load_more_attempts,
iterations, content_changed and previous_page_source_length. -/
structure LoadState where
  attempts : Nat
  iterations : Nat
  contentChanged : Bool
  prevLen : Nat

/-- One pass of the loop body of _load_all_content (src/coupon_clipper.py
lines 3397-3437, continued at lines 220-251 of the stored file): increment
the iteration counter, scroll, optionally click a load-more button, measure
content growth, update the change flag and stored length through the
clicked-but-small-growth / grew / unchanged branches, and evaluate the safety
check that breaks out of the loop when growth stays under 1000 bytes after
more than two iterations.  Output: new state and whether the safety check
fired. -/
def loadStep (env : LoadEnv) (s : LoadState) : LoadState × Bool :=
  let i := s.iterations + 1
  let clicked := env.clickOk i
  let attemptsNew := if clicked then s.attempts + 1 else s.attempts
  let cur := env.lenAfter i
  let growth : ℤ := (cur : ℤ) - (s.prevLen : ℤ)
  let brk := decide (2 < i ∧ growth < 1000)
  if clicked = true ∧ growth < 500 then
    let cur2 := env.lenRecheck i
    if (cur2 : ℤ) - (s.prevLen : ℤ) < 500 then
      (⟨attemptsNew, i, false, s.prevLen⟩, brk)
    else
      (⟨attemptsNew, i, s.contentChanged, cur2⟩, brk)
  else if 500 < growth then
    (⟨attemptsNew, i, true, cur⟩, brk)
  else if clicked = false then
    (⟨attemptsNew, i, false, s.prevLen⟩, brk)
  else
    (⟨attemptsNew, i, s.contentChanged, s.prevLen⟩, brk)

/-- The while loop of _load_all_content: it keeps iterating while
content_changed holds, fewer than load_more_max_attempts load-more clicks
have happened and fewer than 8 iterations have run, stopping at once when
the safety check fires. -/
def loadLoop (env : LoadEnv) (maxAttempts : Nat) (s : LoadState) : LoadState :=
  if h : s.contentChanged = true ∧ s.attempts < maxAttempts ∧ s.iterations < 8 then
    if (loadStep env s).2 then (loadStep env s).1
    else loadLoop env maxAttempts (loadStep env s).1
  else s
termination_by 8 - s.iterations
decreasing_by
  have hi : (loadStep env s).1.iterations = s.iterations + 1 := by
    unfold loadStep
    dsimp only
    split
    · split <;> rfl
    · split
      · rfl
      · split <;> rfl
  omega

/-- Translation of _load_all_content as a whole: run the loop from a fresh
state (zero attempts, zero iterations, content considered changed, initial
page length), then perform the unconditional final full-page scroll (second
component). -/
def loadAllContent (env : LoadEnv) (maxAttempts : Nat) : LoadState × Bool :=
  (loadLoop env maxAttempts ⟨0, 0, true, env.initLen⟩, true)

/-- The common clipped-state text indicators checked by _is_already_clipped. -/
def clippedTextIndicators : List String :=
  ["unclip", "clipped", "added", "saved", "in cart", "remove",
   "offer claimed", "already clipped", "in your wallet"]

/-- Parent-element class fragments that _is_already_clipped treats as marking
an already-clipped coupon. -/
def parentClippedIndicators : List String :=
  ["clipped", "added", "disabled", "claimed"]

/-- Observable state of a coupon button during _is_already_clipped: the text
(whose retrieval may raise, modelled by Except), the class, disabled and
aria-disabled attributes (None when absent), and the class attribute of the
parent element (None here when the parent lookup raised, which the inner
try/except swallows; the attribute itself is defaulted to the empty string by
the Python or-expression). -/
structure ButtonInfo where
  text : Except Unit String
  classAttr : Option String
  disabledAttr : Option String
  ariaDisabled : Option String
  parentClass : Option String

/-- Translation of _is_already_clipped (src/coupon_clipper.py lines 883-942).
Second argument: the coupon_clipped_indicator entry of the website config
(None when the key is absent).  An exception raised while reading the button
text is caught by the outer handler and makes the method return False,
treating the button as clippable. -/
def isAlreadyClipped (b : ButtonInfo) (clippedIndicatorCfg : Option String) : Bool :=
  match b.text with
  | .error _ => false
  | .ok t =>
    let buttonText := strLower t
    if strContains buttonText "unclip" then true
    else if clippedTextIndicators.any (fun ind => strContains buttonText ind) then true
    else if (match clippedIndicatorCfg with
             | some cfg =>
               (cfg.splitOn ", ").any
                 (fun ic => ic.trim != "" && strContains (b.classAttr.getD "") ic)
             | none => false) then true
    else if b.disabledAttr == some "true" || b.disabledAttr == some "" then true
    else if b.ariaDisabled == some "true" then true
    else
      match b.parentClass with
      | some pc => parentClippedIndicators.any (fun ind => strContains pc ind)
      | none => false

/-- The CAPTCHA text phrases checked in the page body by _check_for_captcha. -/
def captchaPhrases : List String :=
  ["complete the captcha", "solve the captcha", "i\x27m not a robot",
   "security check", "checking your browser", "please enable javascript",
   "please wait while we verify", "please wait..."]

/-- How _check_for_captcha hands control over after a detection: no hand-off,
the CloudFlare branch that resolved by itself during the extra wait, or the
manual _user_solve_captcha hand-off that blocks until the user presses
Enter (src/coupon_clipper.py lines 527-540). -/
inductive CaptchaHandOff where
  | noHandOff
  | cloudflareAuto
  | userSolve
deriving DecidableEq, Repr

/-- Observations made by _check_for_captcha: whether some CloudFlare
indicator element is displayed, whether a site-configured captcha_indicators
element is displayed, whether a generic CAPTCHA selector element is
displayed, the body text (whose retrieval may raise: the inner try swallows
the exception and the phrase check is skipped), whether CloudFlare indicator
elements are present at the post-detection re-check, and whether they are
still present after the extra ten-second wait. -/
structure CaptchaEnv where
  cloudflareDisplayed : Bool
  siteIndicatorDisplayed : Bool
  genericSelectorDisplayed : Bool
  bodyText : Except Unit String
  cloudflarePresent : Bool
  cloudflarePresentAfterWait : Bool

/-- Translation of _check_for_captcha (src/coupon_clipper.py lines 399-525).
Output: the returned Bool and the hand-off performed before returning. -/
def checkForCaptcha (env : CaptchaEnv) : Bool × CaptchaHandOff :=
  let detected :=
    env.cloudflareDisplayed || env.siteIndicatorDisplayed ||
    env.genericSelectorDisplayed ||
    (match env.bodyText with
     | .ok t => captchaPhrases.any (fun p => strContains (strLower t) p)
     | .error _ => false)
  if !detected then (false, .noHandOff)
  else if env.cloudflarePresent then
    if env.cloudflarePresentAfterWait then (true, .userSolve)
    else (true, .cloudflareAuto)
  else (true, .userSolve)

/-- Association-list model of a Python dict with string keys: lookup returns
the binding of the key if present. -/
def dictLookup {β : Type} : List (String × β) → String → Option β
  | [], _ => none
  | (k, v) :: rest, key => if k = key then some v else dictLookup rest key

/-- Python dict assignment d[key] = v: update an existing key in place,
append a new key at the end. -/
def dictInsert {β : Type} : List (String × β) → String → β → List (String × β)
  | [], key, v => [(key, v)]
  | (k, w) :: rest, key, v =>
    if k = key then (k, v) :: rest else (k, w) :: dictInsert rest key v

/-- Python dict membership test. -/
def dictContains {β : Type} (d : List (String × β)) (key : String) : Bool :=
  (dictLookup d key).isSome

/-- Session data kept by SessionManager (src/coupon_clipper.py lines
1699-1711): the last website, the per-website dict of clipped coupon ids
with the timestamp of the clip, and the statistics counters total_clipped
and by_website.  Timestamps are abstracted to naturals. -/
structure SessionData where
  lastWebsite : Option String
  clippedCoupons : List (String × List (String × Nat))
  totalClipped : Nat
  byWebsite : List (String × Nat)

/-- Fresh session state built by SessionManager.__init__ when no session
file exists on disk, so load_session leaves the initial dictionary. -/
def initialSessionData : SessionData := ⟨none, [], 0, []⟩

/-- Translation of SessionManager.record_clipped_coupon (src/coupon_clipper.py
lines 1741-1765): initialize the website entries when missing, store the
coupon id with the current timestamp, increment total_clipped and the
per-website counter, and save the session to disk exactly when the new total
is a multiple of five.  Output: new state and whether save_session was
called. -/
def recordClippedCoupon (s : SessionData) (website couponId : String)
    (now : Nat) : SessionData × Bool :=
  let clipped0 :=
    if dictContains s.clippedCoupons website then s.clippedCoupons
    else dictInsert s.clippedCoupons website []
  let by0 :=
    if dictContains s.byWebsite website then s.byWebsite
    else dictInsert s.byWebsite website 0
  let siteDict := (dictLookup clipped0 website).getD []
  let clipped1 := dictInsert clipped0 website (dictInsert siteDict couponId now)
  let total1 := s.totalClipped + 1
  let by1 := dictInsert by0 website ((dictLookup by0 website).getD 0 + 1)
  (⟨s.lastWebsite, clipped1, total1, by1⟩, total1 % 5 == 0)

/-- Translation of SessionManager.set_last_website (src/coupon_clipper.py
lines 1767-1770): record the website and save the session on every call.
Output: new state and whether save_session was called. -/
def setLastWebsite (s : SessionData) (website : String) : SessionData × Bool :=
  ({ s with lastWebsite := some website }, true)

/-- Translation of SessionManager.get_clipped_count for a given website
(src/coupon_clipper.py lines 1776-1789): the number of distinct coupon ids
recorded for it. -/
def getClippedCount (s : SessionData) (website : String) : Nat :=
  ((dictLookup s.clippedCoupons website).getD []).length

/-- Folding a list of (website, coupon id, timestamp) record calls over a
session state. -/
def applyRecords (s : SessionData) : List (String × String × Nat) → SessionData
  | [] => s
  | (w, c, t) :: rest => applyRecords (recordClippedCoupon s w c t).1 rest

/-- Sum of the per-website statistics counters. -/
def sumByWebsite (s : SessionData) : Nat := (s.byWebsite.map Prod.snd).sum

/-- A candidate button as seen during the deduplication pass of
_find_coupon_buttons: the internal Selenium element id and the is_displayed
report. -/
structure PageElement where
  elemId : Nat
  displayed : Bool
deriving DecidableEq

/-- The deduplication pass of _find_coupon_buttons (src/coupon_clipper.py
lines 782-800): walk the accumulated buttons, skip any whose Selenium id was
already seen, record each new id, and keep only buttons reported displayed. -/
def dedupVisible : List PageElement → List Nat → List PageElement
  | [], _ => []
  | b :: rest, seen =>
    if b.elemId ∈ seen then dedupVisible rest seen
    else if b.displayed then b :: dedupVisible rest (b.elemId :: seen)
    else dedupVisible rest (b.elemId :: seen)

/-- The unique visible buttons returned by _find_coupon_buttons from the
matches accumulated by its CSS-selector, text-based and class-based search
strategies. -/
def findCouponButtonsResult (allButtons : List PageElement) : List PageElement :=
  dedupVisible allButtons []

/-- A value in a website configuration dict: a string, a list of strings, or
the site_specific_settings sub-dict (rapid_mode_compatible,
min_delay_override, max_delay_override; the float overrides are transcribed
as exact rationals). -/
inductive ConfigVal where
  | str : String → ConfigVal
  | strList : List String → ConfigVal
  | siteSettings : Bool → Option ℚ → Option ℚ → ConfigVal

/-- The websites table of _default_config (src/coupon_clipper.py lines
1872-2006), transcribed entry by entry. -/
def defaultWebsites : List (String × List (String × ConfigVal)) :=
  [("foodlion",
    [("url", .str "https://foodlion.com/savings/coupons/browse"),
     ("coupon_button_selector", .str ".kds-Button--primary"),
     ("coupon_clipped_indicator", .str ".kds-Button--secondary"),
     ("load_more_button_selector",
      .str "button.kds-Load-More, button.load-more, button:contains(\x27Load More\x27)"),
     ("captcha_indicators",
      .strList ["iframe[title*=\x27recaptcha\x27]", "iframe[src*=\x27recaptcha\x27]",
                "iframe[src*=\x27captcha\x27]", "iframe[src*=\x27cloudflare\x27]"]),
     ("rate_limit_indicators",
      .strList ["Too many requests", "Please try again later"]),
     ("site_specific_settings", .siteSettings false none none)]),
   ("safeway",
    [("url", .str "https://www.safeway.com/foru/coupons-deals.html"),
     ("coupon_button_selector", .str "button.btn.btn-default.btn-block"),
     ("coupon_clipped_indicator", .str "button.btn-tag-primary.disabled"),
     ("load_more_button_selector",
      .str ".load-more-btn, button.load-more, #loadMoreButton"),
     ("captcha_indicators",
      .strList ["iframe[title*=\x27recaptcha\x27]", "iframe[src*=\x27recaptcha\x27]",
                "iframe[src*=\x27captcha\x27]", "iframe[src*=\x27cloudflare\x27]"]),
     ("rate_limit_indicators",
      .strList ["Too many requests", "Please try again later"]),
     ("site_specific_settings", .siteSettings false none none)]),
   ("weis",
    [("url", .str "https://www.weismarkets.com/coupons/"),
     ("coupon_button_selector",
      .str ".btn-load-more, .btn-clip, button.add-coupon, .coupon-btn:not(.added), .coupon-item__add, [data-testid=\x27add-coupon\x27]"),
     ("coupon_clipped_indicator",
      .str ".btn-clip.added, .coupon-btn.added, .coupon-item__added, [data-testid=\x27added-coupon\x27]"),
     ("load_more_button_selector",
      .str ".btn-load-more, .load-more-coupons, button:contains(\x27Load More\x27)"),
     ("captcha_indicators",
      .strList ["iframe[title*=\x27recaptcha\x27]", "iframe[src*=\x27recaptcha\x27]",
                "iframe[src*=\x27captcha\x27]", "iframe[src*=\x27cloudflare\x27]",
                "#challenge-running", "#challenge-form", ".cf-browser-verification"]),
     ("rate_limit_indicators",
      .strList ["You are being rate limited", "Too many requests in a short time",
                "Rate limit exceeded"]),
     ("site_specific_settings", .siteSettings false none none)]),
   ("giant",
    [("url", .str "https://giantfood.com/savings/coupons/browse/"),
     ("coupon_button_selector", .str "button.coupon-clip-btn:not(.is-clipped)"),
     ("coupon_clipped_indicator", .str "button.coupon-clip-btn.is-clipped"),
     ("load_more_button_selector",
      .str ".load-more, #load-more, button.show-more, button:contains(\x27Show More\x27)"),
     ("captcha_indicators",
      .strList ["iframe[title*=\x27recaptcha\x27]", "iframe[src*=\x27recaptcha\x27]",
                "iframe[src*=\x27captcha\x27]", "iframe[src*=\x27cloudflare\x27]"]),
     ("rate_limit_indicators",
      .strList ["Too many requests", "Please try again later"]),
     ("site_specific_settings", .siteSettings false none none)]),
   ("harris_teeter",
    [("url", .str "https://www.harristeeter.com/savings/cl/coupons/"),
     ("coupon_button_selector",
      .str "button:contains(\x27Clip\x27), button.kds-Button--primary:not([disabled]):not(:contains(\x27Unclip\x27)), button.kds-Button--primary[contains(text(), \x27Clip\x27)]"),
     ("coupon_clipped_indicator",
      .str "button:contains(\x27Unclip\x27), button.kds-Button--primary:contains(\x27Unclip\x27), button.kds-Button--primary[disabled]"),
     ("load_more_button_selector",
      .str "button.kds-Load-More, button.load-more, button:contains(\x27Load More\x27)"),
     ("captcha_indicators",
      .strList ["iframe[title*=\x27recaptcha\x27]", "iframe[src*=\x27recaptcha\x27]",
                "iframe[src*=\x27captcha\x27]", "iframe[src*=\x27cloudflare\x27]",
                "div.g-recaptcha"]),
     ("rate_limit_indicators",
      .strList ["Too many requests", "Please try again later"]),
     ("site_specific_settings", .siteSettings true (some (1/10)) (some (3/10)))]),
   ("walmart",
    [("url", .str "https://www.walmart.com/offer/all-offers"),
     ("coupon_button_selector",
      .str "button:contains(\x27Get this offer\x27), button.button--primary"),
     ("coupon_clipped_indicator",
      .str "button:contains(\x27Offer claimed\x27), button.button--primary[disabled]"),
     ("load_more_button_selector",
      .str "button.load-more-button, button.show-more, button:contains(\x27Load More\x27)"),
     ("captcha_indicators",
      .strList ["iframe[title*=\x27recaptcha\x27]", "iframe[src*=\x27recaptcha\x27]",
                "iframe[src*=\x27captcha\x27]", "iframe[src*=\x27cloudflare\x27]",
                "iframe[title*=\x27Human verification challenge\x27]"]),
     ("rate_limit_indicators",
      .strList ["Too many requests", "Please try again later"]),
     ("site_specific_settings", .siteSettings false none none)])]

/-- The seven keys every website entry of the default configuration carries. -/
def websiteRequiredKeys : List String :=
  ["url", "coupon_button_selector", "coupon_clipped_indicator",
   "load_more_button_selector", "captcha_indicators", "rate_limit_indicators",
   "site_specific_settings"]

/-- Helper characterizing the strategy cascade: the cascade returns True
exactly when some strategy in the list succeeds, and the attempted strategies
are the failing head segment followed by the first succeeding strategy when
one exists. -/
theorem tryStrategies_eq (e : ClickButtonEnv) (l : List ClickStrategy) :
    tryStrategies e l =
      (l.any e.succeeds,
       l.takeWhile (fun s => !e.succeeds s) ++
         (l.dropWhile (fun s => !e.succeeds s)).take 1) := by
  induction l with
  | nil => rfl
  | cons s rest ih =>
    by_cases h : e.succeeds s = true
    · simp [tryStrategies, h, List.takeWhile_cons, List.dropWhile_cons]
    · simp only [Bool.not_eq_true] at h
      simp [tryStrategies, h, ih, List.takeWhile_cons, List.dropWhile_cons]

/-- Claim C3: _enhanced_click_button attempts the click strategies in exactly
the order native click, JavaScript click, ActionChains move-and-click,
coordinate click, parent JavaScript click, Enter key; it returns True as soon
as one strategy succeeds, attempting no later strategy (the attempted list is
the failing prefix plus the first success), and it returns False only when
the button is not displayed, not enabled, smaller than 5x5 pixels, or all six
strategies raise. -/
theorem enhancedClickButton_spec (e : ClickButtonEnv) :
    (¬ (e.displayed = true ∧ e.enabled = true ∧ 5 ≤ e.width ∧ 5 ≤ e.height) →
        enhancedClickButton e = (false, [])) ∧
    ((e.displayed = true ∧ e.enabled = true ∧ 5 ≤ e.width ∧ 5 ≤ e.height) →
        (enhancedClickButton e).1 = clickStrategyOrder.any e.succeeds ∧
        (enhancedClickButton e).2 =
          clickStrategyOrder.takeWhile (fun s => !e.succeeds s) ++
            (clickStrategyOrder.dropWhile (fun s => !e.succeeds s)).take 1) := by
  constructor
  · intro h
    unfold enhancedClickButton
    by_cases hd : e.displayed = true
    · by_cases he : e.enabled = true
      · have hsz : e.width < 5 ∨ e.height < 5 := by
          by_contra hc
          push_neg at hc
          exact h ⟨hd, he, hc.1, hc.2⟩
        have hb : (decide (e.width < 5) || decide (e.height < 5)) = true := by
          rcases hsz with h1 | h1 <;> simp [h1]
        simp [hd, he, hb]
      · simp only [Bool.not_eq_true] at he
        simp [he]
    · simp only [Bool.not_eq_true] at hd
      simp [hd]
  · rintro ⟨hd, he, hw, hh⟩
    have hw' : ¬ (e.width < 5) := Nat.not_lt.mpr hw
    have hh' : ¬ (e.height < 5) := Nat.not_lt.mpr hh
    rw [enhancedClickButton]
    simp only [hd, he, Bool.not_true, Bool.or_self, Bool.false_or, if_neg, hw', hh',
      decide_eq_true_eq]
    simp [hw', hh', tryStrategies_eq]

/-- Claim C3 witness: a visible, enabled 10x10 button on which only the
ActionChains strategy succeeds gets the first three strategies attempted and
a True return. -/
theorem enhancedClickButton_spec_witness :
    (enhancedClickButton ⟨true, true, 10, 10, fun s => s == .actionChain⟩).1 = true := by
  have h := (enhancedClickButton_spec ⟨true, true, 10, 10, fun s => s == .actionChain⟩).2
    ⟨rfl, rfl, by norm_num, by norm_num⟩
  rw [h.1]
  decide

end CouponClipper

namespace CouponClipper

/-- Claim C1: on the generic-phrase path (detection enabled, inspecting a
main-content element, no site-configured indicator matching), a check that
finds a generic rate-limit phrase increments rate_limit_count and reports
detection exactly when the incremented counter reaches the threshold; a check
that finds no phrase resets the counter to 0 and reports no detection; and a
match on a site-configured indicator reports detection immediately, leaving
the counter untouched. -/
theorem isRateLimited_generic_path_spec (settings : RateLimitSettings)
    (indicators : List String)
    (henable : settings.enableDetection = true) :
    (∀ txt count,
        indicators.any (fun ind => strContains (strLower txt) (strLower ind)) = false →
        rateLimitPhrases.any (fun p => strContains (strLower txt) p) = true →
        isRateLimited settings indicators (.element txt) count =
          (decide (settings.threshold ≤ count + 1), count + 1)) ∧
    (∀ txt count,
        indicators.any (fun ind => strContains (strLower txt) (strLower ind)) = false →
        rateLimitPhrases.any (fun p => strContains (strLower txt) p) = false →
        isRateLimited settings indicators (.element txt) count = (false, 0)) ∧
    (∀ txt count,
        indicators.any (fun ind => strContains (strLower txt) (strLower ind)) = true →
        isRateLimited settings indicators (.element txt) count = (true, count)) := by
  refine ⟨?_, ?_, ?_⟩ <;> intro txt count h1 <;>
    first
      | (intro h2
         by_cases hth : settings.threshold ≤ count + 1 <;>
           simp [isRateLimited, henable, h1, h2, hth])
      | simp [isRateLimited, henable, h1]

/-- Claim C1 witness: with threshold 3, no site indicators and counter 2, a
main-content text containing a generic phrase yields detection and counter 3. -/
theorem isRateLimited_generic_path_spec_witness :
    isRateLimited ⟨true, 3⟩ [] (.element "rate limit") 2 = (true, 3) := by
  have h := (isRateLimited_generic_path_spec ⟨true, 3⟩ [] rfl).1 "rate limit" 2
    (by decide) (by decide)
  simpa using h

/-- Helper: the truncated wait never exceeds a nonnegative cap that bounds
its argument. -/
theorem pyInt_le_of_le {q maxBackoff : ℚ} (hq : q ≤ maxBackoff)
    (hm : 0 ≤ maxBackoff) : (pyInt q : ℚ) ≤ maxBackoff := by
  unfold pyInt
  split
  · exact le_trans (Int.floor_le q) hq
  · rename_i h
    push_neg at h
    have hc : (⌈q⌉ : ℤ) ≤ 0 := Int.ceil_le.mpr (by exact_mod_cast le_of_lt h)
    calc ((⌈q⌉ : ℤ) : ℚ) ≤ 0 := by exact_mod_cast hc
      _ ≤ maxBackoff := hm

/-- Claim C2 counterexample: with the default backoff factor 1.5 and cap 30,
after one handling the stored backoff_time is 3/2, and the next call sleeps
int(min(30, 3/2)) = 1 second, not min(30, 3/2) = 3/2 seconds as the claim
states. -/
theorem handleRateLimit_wait_cex :
    ¬ (((handleRateLimit (3/2) 30 (backoffAfter (3/2) 30 1)).1 : ℚ) =
        min 30 (backoffAfter (3/2) 30 1)) := by
  have hb : backoffAfter (3/2) 30 1 = 3/2 := by
    show min (30:ℚ) (backoffAfter (3/2) 30 0 * (3/2)) = 3/2
    have h0 : backoffAfter (3/2) 30 0 = 1 := rfl
    rw [h0, one_mul, min_eq_right (by norm_num)]
  have hmin : min (30:ℚ) (3/2) = 3/2 := min_eq_right (by norm_num)
  have hfl : (⌊(3/2 : ℚ)⌋ : ℤ) = 1 := by
    rw [Int.floor_eq_iff]
    norm_num
  rw [hb]
  show ¬ ((pyInt (min (30:ℚ) (3/2)) : ℚ) = min (30:ℚ) (3/2))
  rw [hmin]
  unfold pyInt
  rw [if_pos (by norm_num : (0:ℚ) ≤ 3/2), hfl]
  norm_num

/-- Claim C2 (amended): every call to _handle_rate_limit sleeps
int(min(max_backoff_time, backoff_time)) whole seconds in its countdown, sets
backoff_time to min(max_backoff_time, backoff_time times the factor), and
returns True; starting from the initial backoff_time of 1 (reset at the start
of every clip_coupons run), for a nonnegative cap neither the countdown
duration nor the stored backoff_time ever exceeds max_backoff_time. -/
theorem handleRateLimit_bounded (factor maxBackoff : ℚ) (hm : 0 ≤ maxBackoff) :
    (∀ n, ((handleRateLimit factor maxBackoff (backoffAfter factor maxBackoff n)).1 : ℚ)
        ≤ maxBackoff) ∧
    (∀ n, 1 ≤ n → backoffAfter factor maxBackoff n ≤ maxBackoff) ∧
    (∀ b, (handleRateLimit factor maxBackoff b).2.1
        = min maxBackoff (b * factor) ∧
      (handleRateLimit factor maxBackoff b).2.2 = true) := by
  refine ⟨fun n => ?_, fun n hn => ?_, fun b => ⟨rfl, rfl⟩⟩
  · exact pyInt_le_of_le (min_le_left _ _) hm
  · match n, hn with
    | k + 1, _ => exact min_le_left _ _

/-- Claim C2 witness: instantiation of the amended claim at the default
factor 1.5 and cap 30, two handlings in. -/
theorem handleRateLimit_bounded_witness :
    ((handleRateLimit (3/2) 30 (backoffAfter (3/2) 30 2)).1 : ℚ) ≤ 30 ∧
      backoffAfter (3/2) 30 2 ≤ 30 := by
  have h := handleRateLimit_bounded (3/2) 30 (by norm_num)
  exact ⟨h.1 2, h.2.1 2 (by norm_num)⟩

/-- Helper: one pass of the content-loading loop always increments the
iteration counter by exactly one. -/
theorem loadStep_iterations (env : LoadEnv) (s : LoadState) :
    (loadStep env s).1.iterations = s.iterations + 1 := by
  unfold loadStep
  dsimp only
  repeat' split
  all_goals rfl

/-- Helper: one pass of the content-loading loop adds at most one load-more
attempt. -/
theorem loadStep_attempts_le (env : LoadEnv) (s : LoadState) :
    (loadStep env s).1.attempts ≤ s.attempts + 1 := by
  unfold loadStep
  dsimp only
  repeat' split
  all_goals dsimp only
  all_goals omega

/-- Helper: starting within the bounds, the content-loading loop keeps the
iteration counter at or below 8 and the attempt counter at or below the
maximum. -/
theorem loadLoop_bounds (env : LoadEnv) (maxAttempts : Nat) :
    ∀ k s, 8 - s.iterations ≤ k → s.iterations ≤ 8 → s.attempts ≤ maxAttempts →
      (loadLoop env maxAttempts s).iterations ≤ 8 ∧
      (loadLoop env maxAttempts s).attempts ≤ maxAttempts := by
  intro k
  induction k with
  | zero =>
    intro s hk hi ha
    rw [loadLoop]
    have hng : ¬ (s.contentChanged = true ∧ s.attempts < maxAttempts ∧ s.iterations < 8) := by
      intro hc
      omega
    rw [dif_neg hng]
    exact ⟨hi, ha⟩
  | succ k ih =>
    intro s hk hi ha
    rw [loadLoop]
    by_cases hc : s.contentChanged = true ∧ s.attempts < maxAttempts ∧ s.iterations < 8
    · rw [dif_pos hc]
      have h1 := loadStep_iterations env s
      have h2 := loadStep_attempts_le env s
      by_cases hb : (loadStep env s).2 = true
      · rw [if_pos hb]
        omega
      · rw [if_neg hb]
        exact ih (loadStep env s).1 (by omega) (by omega) (by omega)
    · rw [dif_neg hc]
      exact ⟨hi, ha⟩

/-- Claim C4: _load_all_content always terminates: its loop runs at most 8
iterations and performs at most load_more_max_attempts (default 10)
successful load-more clicks; a pass with no load-more click and page growth
below 500 bytes clears content_changed, ending the loop; a pass with growth
under 1000 bytes after more than two iterations fires the safety break; and
the final full-page scroll is always performed after the loop. -/
theorem loadAllContent_terminates (env : LoadEnv) (maxAttempts : Nat) :
    ((loadAllContent env maxAttempts).1.iterations ≤ 8 ∧
      (loadAllContent env maxAttempts).1.attempts ≤ maxAttempts) ∧
    (∀ s : LoadState, env.clickOk (s.iterations + 1) = false →
        (env.lenAfter (s.iterations + 1) : ℤ) - (s.prevLen : ℤ) < 500 →
        (loadStep env s).1.contentChanged = false) ∧
    (∀ s : LoadState, 2 < s.iterations + 1 →
        (env.lenAfter (s.iterations + 1) : ℤ) - (s.prevLen : ℤ) < 1000 →
        (loadStep env s).2 = true) ∧
    (loadAllContent env maxAttempts).2 = true := by
  refine ⟨?_, ?_, ?_, rfl⟩
  · exact loadLoop_bounds env maxAttempts 8 ⟨0, 0, true, env.initLen⟩
      (by dsimp only; omega) (by dsimp only; omega) (by dsimp only; omega)
  · intro s h1 h2
    have h3 : ¬ ((500:ℤ) < (env.lenAfter (s.iterations + 1) : ℤ) - (s.prevLen : ℤ)) := by
      omega
    unfold loadStep
    dsimp only
    simp [h1, h3]
  · intro s h1 h2
    unfold loadStep
    dsimp only
    repeat' split
    all_goals
      simp only [decide_eq_true_eq]
      exact ⟨h1, h2⟩

/-- Claim C4 witness: with a page that never grows and no load-more button,
the first pass clears content_changed and the whole run stays within the
iteration bound. -/
theorem loadAllContent_terminates_witness :
    (loadStep ⟨fun _ => false, fun _ => 0, fun _ => 0, 0⟩
        ⟨0, 0, true, 0⟩).1.contentChanged = false ∧
    (loadAllContent ⟨fun _ => false, fun _ => 0, fun _ => 0, 0⟩ 10).1.iterations ≤ 8 := by
  have h := loadAllContent_terminates ⟨fun _ => false, fun _ => 0, fun _ => 0, 0⟩ 10
  exact ⟨h.2.1 ⟨0, 0, true, 0⟩ rfl (by norm_num), h.1.1⟩

/-- Claim C5: _is_already_clipped returns True exactly when the button text
contains a clipped-text indicator, or the class attribute contains a class
from the coupon_clipped_indicator list of the website config, or the disabled
attribute is the string true or the empty string, or aria-disabled is true,
or the parent class contains one of the parent indicators; otherwise, and
when reading the button text raises, it returns False, treating the button as
clippable. -/
theorem isAlreadyClipped_spec (b : ButtonInfo) (cfg : Option String) :
    (∀ e, b.text = .error e → isAlreadyClipped b cfg = false) ∧
    (∀ t, b.text = .ok t →
      (isAlreadyClipped b cfg = true ↔
        ((∃ ind ∈ clippedTextIndicators, strContains (strLower t) ind = true) ∨
         (∃ c, cfg = some c ∧ ∃ ic ∈ c.splitOn ", ",
            ic.trim ≠ "" ∧ strContains (b.classAttr.getD "") ic = true) ∨
         b.disabledAttr = some "true" ∨ b.disabledAttr = some "" ∨
         b.ariaDisabled = some "true" ∨
         (∃ pc, b.parentClass = some pc ∧
            ∃ ind ∈ parentClippedIndicators, strContains pc ind = true)))) := by
  constructor
  · intro e he
    simp [isAlreadyClipped, he]
  · intro t ht
    by_cases h1 : strContains (strLower t) "unclip" = true
    · simp only [isAlreadyClipped, ht, h1, if_true]
      simp only [true_iff]
      exact Or.inl ⟨"unclip", by simp [clippedTextIndicators], h1⟩
    · rcases cfg with _ | c <;> rcases hp : b.parentClass with _ | pc <;>
        (simp [isAlreadyClipped, ht, h1, hp, List.any_eq_true, beq_iff_eq,
          clippedTextIndicators]
         aesop)

/-- Claim C5 witness: a button whose text contains the indicator clipped is
reported as already clipped. -/
theorem isAlreadyClipped_spec_witness :
    isAlreadyClipped ⟨.ok "Clipped!", none, none, none, none⟩ none = true := by
  have h := (isAlreadyClipped_spec ⟨.ok "Clipped!", none, none, none, none⟩ none).2
    "Clipped!" rfl
  exact h.mpr (Or.inl ⟨"clipped", by simp [clippedTextIndicators], by decide⟩)

/-- Claim C6: _check_for_captcha returns True exactly when a CAPTCHA is
detected through a displayed CloudFlare indicator, a displayed
site-configured indicator, a displayed generic CAPTCHA selector, or a CAPTCHA
phrase in the body text; before returning True it hands control to the
operator (waiting out the extra ten seconds when CloudFlare resolves by
itself, otherwise blocking on _user_solve_captcha); and it returns False with
no hand-off when nothing matches, in particular when reading the body text
raises and no element is displayed. -/
theorem checkForCaptcha_spec (env : CaptchaEnv) :
    ((checkForCaptcha env).1 = true ↔
      (env.cloudflareDisplayed = true ∨ env.siteIndicatorDisplayed = true ∨
       env.genericSelectorDisplayed = true ∨
       (∃ t, env.bodyText = .ok t ∧
          ∃ p ∈ captchaPhrases, strContains (strLower t) p = true))) ∧
    ((checkForCaptcha env).1 = true → (checkForCaptcha env).2 ≠ .noHandOff) ∧
    ((checkForCaptcha env).1 = true → env.cloudflarePresent = false →
      (checkForCaptcha env).2 = .userSolve) ∧
    ((checkForCaptcha env).1 = true → env.cloudflarePresent = true →
      env.cloudflarePresentAfterWait = true →
      (checkForCaptcha env).2 = .userSolve) ∧
    ((checkForCaptcha env).1 = true → env.cloudflarePresent = true →
      env.cloudflarePresentAfterWait = false →
      (checkForCaptcha env).2 = .cloudflareAuto) ∧
    ((env.cloudflareDisplayed = false ∧ env.siteIndicatorDisplayed = false ∧
      env.genericSelectorDisplayed = false ∧ (∃ e, env.bodyText = .error e)) →
      checkForCaptcha env = (false, .noHandOff)) := by
  rcases env with ⟨cf, site, gen, body, pres, presW⟩
  rcases body with e | t
  · cases cf <;> cases site <;> cases gen <;> cases pres <;> cases presW <;>
      simp [checkForCaptcha, List.any_eq_true]
  · by_cases hA : (captchaPhrases.any fun p => strContains (strLower t) p) = true <;>
      cases cf <;> cases site <;> cases gen <;> cases pres <;> cases presW <;>
      simp [checkForCaptcha, hA, List.any_eq_true] <;> aesop

/-- Claim C6 witness: a displayed CloudFlare indicator with no CloudFlare
element present at the re-check yields a True return through the manual
hand-off. -/
theorem checkForCaptcha_spec_witness :
    (checkForCaptcha ⟨true, false, false, .error (), false, false⟩).2 =
      CaptchaHandOff.userSolve := by
  have h := checkForCaptcha_spec ⟨true, false, false, .error (), false, false⟩
  exact h.2.2.1 (h.1.mpr (Or.inl rfl)) rfl

/-- Helper: looking up the key just inserted yields the inserted value. -/
theorem dictLookup_insert_self {β : Type} (d : List (String × β)) (k : String) (v : β) :
    dictLookup (dictInsert d k v) k = some v := by
  induction d with
  | nil => simp [dictInsert, dictLookup]
  | cons hd rest ih =>
    obtain ⟨k0, w⟩ := hd
    by_cases h : k0 = k
    · simp [dictInsert, dictLookup, h]
    · simp [dictInsert, dictLookup, h, ih]

/-- Helper: insertion does not affect lookups of other keys. -/
theorem dictLookup_insert_other {β : Type} (d : List (String × β)) (k k' : String)
    (v : β) (h : k' ≠ k) :
    dictLookup (dictInsert d k v) k' = dictLookup d k' := by
  have h' : ¬ (k = k') := fun hh => h hh.symm
  induction d with
  | nil => simp [dictInsert, dictLookup, h']
  | cons hd rest ih =>
    obtain ⟨k0, w⟩ := hd
    by_cases hk : k0 = k
    · subst hk
      simp [dictInsert, dictLookup, h']
    · simp [dictInsert, dictLookup, hk, ih]

/-- Helper: replacing the value of an existing counter binding by its
successor raises the counter sum by one. -/
theorem sum_dictInsert_succ (d : List (String × Nat)) (k : String) (x : Nat)
    (h : dictLookup d k = some x) :
    ((dictInsert d k (x + 1)).map Prod.snd).sum = (d.map Prod.snd).sum + 1 := by
  induction d with
  | nil => simp [dictLookup] at h
  | cons hd rest ih =>
    obtain ⟨k0, w⟩ := hd
    by_cases hk : k0 = k
    · simp only [dictLookup, hk, if_pos] at h
      simp only [Option.some.injEq] at h
      subst h
      simp [dictInsert, hk]
      omega
    · simp only [dictLookup, hk, if_neg, ite_false] at h
      simp [dictInsert, hk, ih h]
      omega

/-- Helper: inserting a fresh binding appends it, adding its value to the
counter sum. -/
theorem sum_dictInsert_new (d : List (String × Nat)) (k : String) (v : Nat)
    (h : dictLookup d k = none) :
    ((dictInsert d k v).map Prod.snd).sum = (d.map Prod.snd).sum + v := by
  induction d with
  | nil => simp [dictInsert]
  | cons hd rest ih =>
    obtain ⟨k0, w⟩ := hd
    by_cases hk : k0 = k
    · simp [dictLookup, hk] at h
    · simp only [dictLookup, hk, if_neg, ite_false] at h
      simp [dictInsert, hk, ih h]
      omega

/-- Claim C7: record_clipped_coupon stores the coupon id with the current
timestamp under the website, increments total_clipped and the by_website
counter of that website by exactly one (initializing missing entries first,
leaving other websites untouched), and saves the session exactly when the
new total is a multiple of five; set_last_website records the website and
saves the session on every call. -/
theorem recordClippedCoupon_spec (s : SessionData) (website couponId : String)
    (now : Nat) :
    (dictLookup ((dictLookup (recordClippedCoupon s website couponId now).1.clippedCoupons
        website).getD []) couponId = some now) ∧
    ((recordClippedCoupon s website couponId now).1.totalClipped = s.totalClipped + 1) ∧
    (dictLookup (recordClippedCoupon s website couponId now).1.byWebsite website =
       some ((dictLookup s.byWebsite website).getD 0 + 1)) ∧
    (∀ w, w ≠ website →
       dictLookup (recordClippedCoupon s website couponId now).1.byWebsite w =
         dictLookup s.byWebsite w) ∧
    ((recordClippedCoupon s website couponId now).2 = true ↔
       (s.totalClipped + 1) % 5 = 0) ∧
    ((setLastWebsite s website).1.lastWebsite = some website ∧
      (setLastWebsite s website).2 = true) := by
  refine ⟨?_, rfl, ?_, ?_, ?_, rfl, rfl⟩
  · simp only [recordClippedCoupon]
    rw [dictLookup_insert_self]
    simp [dictLookup_insert_self]
  · by_cases hc : dictContains s.byWebsite website = true
    · simp only [recordClippedCoupon]
      rw [if_pos hc, dictLookup_insert_self]
    · have hn : dictLookup s.byWebsite website = none := by
        rcases hh : dictLookup s.byWebsite website with _ | v
        · rfl
        · simp [dictContains, hh] at hc
      simp only [recordClippedCoupon]
      rw [if_neg hc, dictLookup_insert_self, hn]
      simp [dictLookup_insert_self]
  · intro w hw
    by_cases hc : dictContains s.byWebsite website = true
    · simp only [recordClippedCoupon]
      rw [if_pos hc, dictLookup_insert_other _ _ _ _ hw]
    · simp only [recordClippedCoupon]
      rw [if_neg hc, dictLookup_insert_other _ _ _ _ hw,
        dictLookup_insert_other _ _ _ _ hw]
  · simp only [recordClippedCoupon]
    simp [beq_iff_eq]

/-- Helper: one record call increments total_clipped and the by_website sum
by exactly one. -/
theorem recordClippedCoupon_counts (s : SessionData) (w c : String) (t : Nat) :
    (recordClippedCoupon s w c t).1.totalClipped = s.totalClipped + 1 ∧
    sumByWebsite (recordClippedCoupon s w c t).1 = sumByWebsite s + 1 := by
  refine ⟨rfl, ?_⟩
  by_cases hc : dictContains s.byWebsite w = true
  · rcases hh : dictLookup s.byWebsite w with _ | x
    · simp [dictContains, hh] at hc
    · simp only [recordClippedCoupon, sumByWebsite]
      rw [if_pos hc, hh]
      simpa using sum_dictInsert_succ s.byWebsite w x hh
  · have hn : dictLookup s.byWebsite w = none := by
      rcases hh : dictLookup s.byWebsite w with _ | v
      · rfl
      · simp [dictContains, hh] at hc
    simp only [recordClippedCoupon, sumByWebsite]
    rw [if_neg hc, dictLookup_insert_self]
    have h1 := sum_dictInsert_new s.byWebsite w 0 hn
    have h2 := sum_dictInsert_succ (dictInsert s.byWebsite w 0) w 0
      (dictLookup_insert_self _ _ _)
    simp only [Nat.add_zero] at h1
    simp [h2, h1]

/-- Helper: cumulative counting over a list of record calls. -/
theorem applyRecords_counts (calls : List (String × String × Nat)) :
    ∀ s, (applyRecords s calls).totalClipped = s.totalClipped + calls.length ∧
      sumByWebsite (applyRecords s calls) = sumByWebsite s + calls.length := by
  induction calls with
  | nil =>
    intro s
    simp [applyRecords]
  | cons hd rest ih =>
    obtain ⟨w, c, t⟩ := hd
    intro s
    have h := recordClippedCoupon_counts s w c t
    have h2 := ih (recordClippedCoupon s w c t).1
    simp only [applyRecords, h2.1, h2.2, h.1, h.2, List.length_cons]
    omega

/-- Claim C10: starting from a fresh session, after any sequence of
record_clipped_coupon calls total_clipped equals the sum of the by_website
counters and both equal the number of calls; recording the same coupon id
twice for a website still increments both counters twice, so the distinct-id
count returned by get_clipped_count can be strictly smaller than the
by_website counter. -/
theorem sessionStatistics_invariant :
    (∀ calls : List (String × String × Nat),
      (applyRecords initialSessionData calls).totalClipped = calls.length ∧
      sumByWebsite (applyRecords initialSessionData calls) = calls.length) ∧
    (getClippedCount
        (applyRecords initialSessionData [("weis", "c1", 0), ("weis", "c1", 1)])
        "weis" = 1 ∧
      dictLookup (applyRecords initialSessionData
          [("weis", "c1", 0), ("weis", "c1", 1)]).byWebsite "weis" = some 2) := by
  refine ⟨fun calls => ?_, by decide, by decide⟩
  have h := applyRecords_counts calls initialSessionData
  simpa [initialSessionData, sumByWebsite] using h

/-- Helper: every element surviving the deduplication pass was reported
displayed and carries an id outside the seen set, and the survivors have
pairwise distinct ids. -/
theorem dedupVisible_sound (l : List PageElement) :
    ∀ seen : List Nat,
      (∀ e ∈ dedupVisible l seen, e.displayed = true ∧ e.elemId ∉ seen) ∧
      (dedupVisible l seen).Pairwise (fun a b => a.elemId ≠ b.elemId) := by
  induction l with
  | nil =>
    intro seen
    simp [dedupVisible]
  | cons b rest ih =>
    intro seen
    by_cases h1 : b.elemId ∈ seen
    · constructor
      · intro e he
        simp only [dedupVisible, if_pos h1] at he
        exact (ih seen).1 e he
      · simp only [dedupVisible, if_pos h1]
        exact (ih seen).2
    · by_cases h2 : b.displayed = true
      · have h := ih (b.elemId :: seen)
        constructor
        · intro e he
          simp only [dedupVisible, if_neg h1, if_pos h2] at he
          rcases List.mem_cons.mp he with rfl | he2
          · exact ⟨h2, h1⟩
          · obtain ⟨hd, hmem⟩ := h.1 e he2
            exact ⟨hd, fun hin => hmem (List.mem_cons_of_mem _ hin)⟩
        · simp only [dedupVisible, if_neg h1, if_pos h2]
          refine List.Pairwise.cons ?_ h.2
          intro e he
          have hmem := (h.1 e he).2
          exact fun heq => hmem (by rw [← heq]; exact List.mem_cons_self _ _)
      · have h := ih (b.elemId :: seen)
        constructor
        · intro e he
          simp only [dedupVisible, if_neg h1, if_neg h2] at he
          obtain ⟨hd, hmem⟩ := h.1 e he
          exact ⟨hd, fun hin => hmem (List.mem_cons_of_mem _ hin)⟩
        · simp only [dedupVisible, if_neg h1, if_neg h2]
          exact h.2

/-- Claim C9: the list returned by _find_coupon_buttons contains no two
elements with the same Selenium element id and only elements that reported
is_displayed true during the deduplication pass, no matter what candidates
the search strategies accumulated. -/
theorem findCouponButtons_unique_visible (allButtons : List PageElement) :
    (findCouponButtonsResult allButtons).Pairwise (fun a b => a.elemId ≠ b.elemId) ∧
    (∀ e ∈ findCouponButtonsResult allButtons, e.displayed = true) := by
  have h := dedupVisible_sound allButtons []
  exact ⟨h.2, fun e he => (h.1 e he).1⟩

/-- Claim C8: the default configuration defines exactly the six retailer
websites foodlion, safeway, weis, giant, harris_teeter and walmart, in this
order, and each website entry carries a url, a coupon_button_selector, a
coupon_clipped_indicator, a load_more_button_selector, captcha_indicators,
rate_limit_indicators and site_specific_settings key. -/
theorem defaultConfig_websites :
    defaultWebsites.map Prod.fst =
      ["foodlion", "safeway", "weis", "giant", "harris_teeter", "walmart"] ∧
    defaultWebsites.all
      (fun w => websiteRequiredKeys.all
        (fun k => (w.2.map Prod.fst).contains k)) = true := by
  constructor
  · rfl
  · rfl

/-- Claim C9 witness: a duplicated id and a hidden element are filtered, and
the surviving element had reported is_displayed true. -/
theorem findCouponButtons_unique_visible_witness :
    (⟨1, true⟩ : PageElement).displayed = true := by
  have h := findCouponButtons_unique_visible [⟨1, true⟩, ⟨1, true⟩, ⟨2, false⟩]
  exact h.2 ⟨1, true⟩ (by decide)

/-- Claim C7 witness: recording a coupon on a fresh session leaves other
websites untouched and sets total_clipped to one. -/
theorem recordClippedCoupon_spec_witness :
    dictLookup (recordClippedCoupon initialSessionData "weis" "c1" 7).1.byWebsite
      "giant" = dictLookup initialSessionData.byWebsite "giant" ∧
    (recordClippedCoupon initialSessionData "weis" "c1" 7).1.totalClipped = 1 := by
  have h := recordClippedCoupon_spec initialSessionData "weis" "c1" 7
  exact ⟨h.2.2.2.1 "giant" (by decide), h.2.1⟩

end CouponClipper
